import Mathlib

/-
Verification of the neomutt colour subsystem (src/color/parse_ansi.c and
src/color/command.c) against its natural-language specification.

Embedding conventions:
* A C string is a `List Char`; reading `str[i]` is `cget s i`, which yields the
  NUL character `Char.ofNat 0` past the end of the list, mirroring the NUL
  terminator of a C string.
* The `while` loop of `ansi_color_parse_single` does not obviously terminate
  (indeed it does not, see the theorem for claim C1), so it is embedded with an
  explicit fuel argument; `none` means the loop did not finish within the given
  fuel, and divergence is expressed as `none` for every fuel.
* Machine integers are `Int`/`Nat`; the only place C integer width matters is
  `strtoul`'s saturation at ULONG_MAX, which is on the same side of the
  `value < 256` comparison as the exact value, so plain `Nat` is faithful.
* Attribute bits (curses `A_BOLD` etc.) are modelled as distinct powers of two;
  the code only combines them with bitwise or.
-/

/-- Read byte `i` of a C string: the element at index `i`, or NUL past the end. -/
def cget (s : List Char) (i : Nat) : Char :=
  s.getD i (Char.ofNat 0)

/-- The NUL terminator byte. -/
def nulChar : Char := Char.ofNat 0

/-- The escape byte `'\033'`. -/
def escChar : Char := Char.ofNat 27

/-- ansi_is_end_char (parse_ansi.c:45): is this the end of a sequence? -/
def ansi_is_end_char (c : Char) : Bool :=
  c = 'm' || c = ';'

/-- Loop of ansi_skip_sequence: how many leading characters are neither NUL nor
an end char. -/
def skipCount : List Char → Nat
  | [] => 0
  | c :: cs => if c = nulChar || ansi_is_end_char c then 0 else skipCount cs + 1

/-- ansi_skip_sequence (parse_ansi.c:55): skip an unrecognised sequence,
returning the number of characters to skip over.  Starting from `count = 1`, it
advances while the current character is neither NUL nor an end char. -/
def ansi_skip_sequence (s : List Char) : Nat :=
  if cget s 0 = nulChar then 0 else 1 + skipCount s

/-- Loop of ansi_color_seq_length: the characters scanned over are ASCII digits
and semicolons (NUL is neither, so the explicit NUL test of the C loop is
absorbed). -/
def isSeqParamChar (c : Char) : Bool :=
  c.isDigit || c = ';'

/-- Number of leading digit/semicolon characters. -/
def scanParams : List Char → Nat
  | [] => 0
  | c :: cs => if isSeqParamChar c then scanParams cs + 1 else 0

/-- ansi_color_seq_length (parse_ansi.c:79): length of a recognised ANSI colour
sequence (introducer `ESC [`, digits/semicolons, terminator `m`), else 0. -/
def ansi_color_seq_length (s : List Char) : Nat :=
  if cget s 0 = nulChar then 0
  else if ¬(cget s 0 = escChar ∧ cget s 1 = '[') then 0
  else
    let i := 2 + scanParams (s.drop 2)
    if cget s i = 'm' then i + 1 else 0

/-- COLOR_DEFAULT sentinel (color.h): the terminal default colour, -1. -/
def COLOR_DEFAULT : Int := -1

/-- Curses attribute bit. -/
def A_BOLD : Nat := 1

/-- Curses attribute bit. -/
def A_ITALIC : Nat := 2

/-- Curses attribute bit. -/
def A_UNDERLINE : Nat := 4

/-- Curses attribute bit. -/
def A_BLINK : Nat := 8

/-- Curses attribute bit. -/
def A_REVERSE : Nat := 16

/-- Curses attribute bit. -/
def A_STANDOUT : Nat := 32

/-- struct AnsiColor: the accumulator the SGR parser updates.  `attr_color` is
the cached curses colour handle, cleared (set to NULL) by a full reset. -/
structure AnsiColor where
  fg : Int
  bg : Int
  attrs : Nat
  attr_color : Option Unit
deriving DecidableEq

/-- mutt_str_startswith (mutt/string.c, used as a boolean here): do the first
`p.length` bytes of the C string `s` equal `p`?  A NUL or the end of `s` inside
that range mismatches, since `p` never contains NUL at the call sites. -/
def mutt_str_startswith (s p : List Char) : Bool :=
  decide (∀ i, i < p.length → cget s i = cget p i)

/-- Value of the leading run of decimal digits, as computed by
`strtoul(s, &end, 10)` when the first character is a digit. -/
def strtoulVal (s : List Char) : Nat :=
  (s.takeWhile Char.isDigit).foldl (fun a c => a * 10 + (c.toNat - 48)) 0

/-- Number of digits consumed by `strtoul(s, &end, 10)`, i.e. `end - s`. -/
def strtoulLen (s : List Char) : Nat :=
  (s.takeWhile Char.isDigit).length

/-- The literal `"38;5;"`. -/
def pfx385 : List Char := ['3', '8', ';', '5', ';']

/-- The literal `"38;2;"`. -/
def pfx382 : List Char := ['3', '8', ';', '2', ';']

/-- The literal `"48;5;"`. -/
def pfx485 : List Char := ['4', '8', ';', '5', ';']

/-- The literal `"48;2;"`. -/
def pfx482 : List Char := ['4', '8', ';', '2', ';']

/-- Outcome of one iteration of the parameter loop of
`ansi_color_parse_single`: either `return n` out of the function, or continue
at a new position with an updated accumulator. -/
inductive StepResult where
  | ret (n : Nat)
  | cont (pos : Nat) (st : AnsiColor)
deriving DecidableEq

/-- Inner loop of the final `else` branch of the parameter loop
(parse_ansi.c:253-254): advance while `pos < seq_len` and the current byte is
not a semicolon.  Structurally recursive on the gap `seq_len - pos`. -/
def skipToSemiAux (buf : List Char) : Nat → Nat → Nat
  | pos, 0 => pos
  | pos, g + 1 => if cget buf pos = ';' then pos else skipToSemiAux buf (pos + 1) g

/-- Position reached by `while ((pos < seq_len) && (buf[pos] != ';')) pos++;`. -/
def skipToSemi (buf : List Char) (seq_len pos : Nat) : Nat :=
  skipToSemiAux buf pos (seq_len - pos)

/-- One iteration of the parameter loop of ansi_color_parse_single
(parse_ansi.c:120-255), transcribed branch for branch.  `pos` is the current
index into `buf`; the C reads `buf[pos]`, `buf[pos+1]`, `buf[pos+2]` and, in
the `38`/`48` branches, compares `buf + pos` against `"38;5;"` etc. and runs
`strtoul` from `buf + pos + 5`. -/
def parseStep (buf : List Char) (seq_len : Nat) (pos : Nat) (st : AnsiColor) : StepResult :=
  if cget buf pos = '0' ∧ (cget buf (pos + 1)).isDigit then
    .cont (pos + 1) st
  else if cget buf pos = '0' ∧ ansi_is_end_char (cget buf (pos + 1)) then
    .cont (pos + 2) { fg := COLOR_DEFAULT, bg := COLOR_DEFAULT, attrs := 0, attr_color := none }
  else if cget buf pos = '1' ∧ ansi_is_end_char (cget buf (pos + 1)) then
    .cont (pos + 2) { st with attrs := st.attrs ||| A_BOLD }
  else if cget buf pos = '3' ∧ ansi_is_end_char (cget buf (pos + 1)) then
    .cont (pos + 2) { st with attrs := st.attrs ||| A_ITALIC }
  else if cget buf pos = '3' then
    if '0' ≤ cget buf (pos + 1) ∧ cget buf (pos + 1) < '8' ∧
        ansi_is_end_char (cget buf (pos + 2)) then
      .cont (pos + 3) { st with fg := ((cget buf (pos + 1)).toNat : Int) - 48 }
    else if cget buf (pos + 1) = '8' then
      if mutt_str_startswith (buf.drop pos) pfx385 ∧
          (cget buf (pos + 5)).isDigit then
        if strtoulVal (buf.drop (pos + 5)) < 256 ∧
            ansi_is_end_char (cget buf (pos + 5 + strtoulLen (buf.drop (pos + 5)))) then
          .cont (pos + 5 + strtoulLen (buf.drop (pos + 5)))
            { st with fg := (strtoulVal (buf.drop (pos + 5)) : Int) }
        else
          .cont (pos + ansi_skip_sequence (buf.drop pos)) st
      else if mutt_str_startswith (buf.drop pos) pfx382 ∧
          (cget buf (pos + 5)).isDigit then
        let p1 := pos + ansi_skip_sequence (buf.drop (pos + 5))
        let p2 := p1 + ansi_skip_sequence (buf.drop p1)
        .cont (p2 + ansi_skip_sequence (buf.drop p2)) st
      else
        .ret pos
    else if cget buf (pos + 1) = '9' ∧ ansi_is_end_char (cget buf (pos + 2)) then
      .cont (pos + 2) { st with fg := COLOR_DEFAULT }
    else
      .cont (pos + ansi_skip_sequence (buf.drop pos)) st
  else if cget buf pos = '4' ∧ ansi_is_end_char (cget buf (pos + 1)) then
    .cont (pos + 2) { st with attrs := st.attrs ||| A_UNDERLINE }
  else if cget buf pos = '4' then
    if '0' ≤ cget buf (pos + 1) ∧ cget buf (pos + 1) < '8' then
      .cont (pos + 3) { st with bg := ((cget buf (pos + 1)).toNat : Int) - 48 }
    else if cget buf (pos + 1) = '8' then
      if mutt_str_startswith (buf.drop pos) pfx485 ∧
          (cget buf (pos + 5)).isDigit then
        if strtoulVal (buf.drop (pos + 5)) < 256 ∧
            ansi_is_end_char (cget buf (pos + 5 + strtoulLen (buf.drop (pos + 5)))) then
          .cont (pos + 5 + strtoulLen (buf.drop (pos + 5)))
            { st with bg := (strtoulVal (buf.drop (pos + 5)) : Int) }
        else
          .cont (pos + ansi_skip_sequence (buf.drop pos)) st
      else if mutt_str_startswith (buf.drop pos) pfx482 ∧
          (cget buf (pos + 5)).isDigit then
        let p1 := pos + ansi_skip_sequence (buf.drop (pos + 5))
        let p2 := p1 + ansi_skip_sequence (buf.drop p1)
        .cont (p2 + ansi_skip_sequence (buf.drop p2)) st
      else
        .cont (pos + ansi_skip_sequence (buf.drop pos)) st
    else if cget buf (pos + 1) = '9' ∧ ansi_is_end_char (cget buf (pos + 2)) then
      .cont (pos + 2) { st with bg := COLOR_DEFAULT }
    else
      .cont pos st
  else if cget buf pos = '5' ∧ ansi_is_end_char (cget buf (pos + 1)) then
    .cont (pos + 2) { st with attrs := st.attrs ||| A_BLINK }
  else if cget buf pos = '7' ∧ ansi_is_end_char (cget buf (pos + 1)) then
    .cont (pos + 2) { st with attrs := st.attrs ||| A_REVERSE }
  else
    .cont (skipToSemi buf seq_len pos) st

/-- The parameter loop `while (pos < seq_len) { ... }` of
ansi_color_parse_single, with explicit fuel: `none` means the loop did not
finish within `fuel` iterations (the exit test `pos < seq_len` is checked
before any fuel is consumed, so a loop that exits needs only as much fuel as
it has iterations). -/
def parseLoop (buf : List Char) (seq_len : Nat) : Nat → Nat → AnsiColor →
    Option (Nat × AnsiColor)
  | 0, pos, st => if seq_len ≤ pos then some (pos, st) else none
  | f + 1, pos, st =>
    if seq_len ≤ pos then some (pos, st)
    else
      match parseStep buf seq_len pos st with
      | .ret n => some (n, st)
      | .cont p s => parseLoop buf seq_len f p s

/-- ansi_color_parse_single (parse_ansi.c:109): parse a single ANSI escape
sequence into the accumulator.  A NULL accumulator or `dry_run` returns the
sequence length without touching any state.  Result `some (n, a)` is the C
return value `n` together with the final accumulator; `none` means the
parameter loop ran out of fuel. -/
def ansi_color_parse_single (buf : List Char) (ansi : Option AnsiColor) (dry_run : Bool)
    (fuel : Nat) : Option (Nat × Option AnsiColor) :=
  if ansi_color_seq_length buf = 0 then some (0, ansi)
  else
    match ansi, dry_run with
    | some st, false =>
      (parseLoop buf (ansi_color_seq_length buf) fuel 2 st).map (fun r => (r.1, some r.2))
    | a, _ => some (ansi_color_seq_length buf, a)

/-- The sequence `ESC [ 2 2 ; 1 m` of claim C1: parameter 22 is unknown. -/
def seq22 : List Char := ['\x1b', '[', '2', '2', ';', '1', 'm']

/-- The sequence `ESC [ 3 8 ; 5 ; 2 0 0 m` of claim C3. -/
def seq200 : List Char := ['\x1b', '[', '3', '8', ';', '5', ';', '2', '0', '0', 'm']

/-- The sequence `ESC [ 3 8 ; 5 ; 3 0 0 m` of claim C3: palette index 300 is
out of range. -/
def seq300 : List Char := ['\x1b', '[', '3', '8', ';', '5', ';', '3', '0', '0', 'm']

/-- The sequence `ESC [ 0 m` of claim C8: a full reset. -/
def seq0m : List Char := ['\x1b', '[', '0', 'm']

/-- The sequence `ESC [ 0 1 m` of claim C8: a leading zero before `1`. -/
def seq01m : List Char := ['\x1b', '[', '0', '1', 'm']

/-- The sequence `ESC [ 4 5 3 m` of claim C10. -/
def seq453 : List Char := ['\x1b', '[', '4', '5', '3', 'm']

/-- The sequence `ESC [ 3 5 3 m` of claim C10. -/
def seq353 : List Char := ['\x1b', '[', '3', '5', '3', 'm']

/-- The sequence `ESC [ 3 8 ; 7 m` of claim C9: after `38;` the text matches
neither `5;<digit>` nor `2;<digit>`. -/
def seq387 : List Char := ['\x1b', '[', '3', '8', ';', '7', 'm']

/-- The well-formed sequence of claim C7. -/
def seq132 : List Char := ['\x1b', '[', '1', ';', '3', '2', 'm']

/-- The non-sequence of claim C7. -/
def notAnsi : List Char := ['n', 'o', 't', '-', 'a', 'n', 's', 'i']

/-
Directive interpreter (src/color/command.c).

The command layer consumes whitespace-delimited tokens produced by an external
tokenizer; here the unparsed remainder `s` is a `List Token` and
`parse_extract_token` is taking the head.  The colour storage tiers, the
attribute/colour-pair parsers, the curses capability probe and the globals are
external collaborators (their code is not under src/): their behaviour is an
explicit `ColorEnv` of oracles, and the mutating calls the interpreter makes
are recorded as an `Effect` trace, so that claims about "what was mutated and
notified" are claims about the trace.  Pure logging (color_debug,
curses_colors_dump, get_colorid_name formatting a name into a scratch buffer)
is not recorded.

Colour identifiers: `enum ColorId` lives in color.h, outside src/.  Only the
distinctness of the identifiers and which name maps to which identifier are
observable in src/; the numeric codes below are arbitrary distinct `Int`s, in
the order of the ColorFields table (both `sidebar_spool_file` spellings map to
the same identifier, as in the C table).
-/

/-- A whitespace-delimited token, as a C string. -/
abbrev Token := List Char

/-- enum CommandResult (core/command.h). -/
inductive CommandResult where
  | error
  | warning
  | success
  | finish
deriving DecidableEq

/-- The error messages command.c can print into `err`. -/
inductive ErrMsg where
  | noSuchObject (tok : Token)
  | tooFewArguments
  | tooManyArguments
  | invalidNumber (tok : Token)
  | badAttr (tok : Token)
  | defaultColorsNotSupported
deriving DecidableEq

/-- The observable calls the interpreter makes into the colour storage tiers,
the notification sink and the display surface. -/
inductive Effect where
  | colorDump
  | colorsCleanup
  | quotedUncolor (cid : Int) (ql : Int)
  | simpleReset (cid : Int)
  | regexUncolor (cid : Int) (pat : Option Token) (uncolor : Bool)
  | regexDumpAll
  | regexColorList (cid : Int) (pat : Token) (fg bg : Int) (attrs : Nat)
  | quotedColor (cid : Int) (fg bg : Int) (attrs : Nat) (ql : Int)
  | statusColorList (cid : Int) (pat : Token) (fg bg : Int) (attrs : Nat) (mtch : Nat)
  | simpleSet (cid : Int) (fg bg : Int) (attrs : Nat)
  | notify (cid : Int)
deriving DecidableEq

/-- Result of a directive: the CommandResult, the trace of mutating calls, and
the message left in `err` (if any). -/
structure CmdOut where
  rc : CommandResult
  effects : List Effect
  err : Option ErrMsg
deriving DecidableEq

def MT_COLOR_NONE : Int := 0
def MT_COLOR_BODY : Int := 3
def MT_COLOR_INDEX : Int := 8
def MT_COLOR_QUOTED : Int := 27
def MT_COLOR_STATUS : Int := 39
def MT_COLOR_TILDE : Int := 42
def MT_COLOR_TREE : Int := 43

/-- ColorFields (command.c:52): mapping of colour names to their identifiers,
in source order, including the USE_SIDEBAR entries. -/
def ColorFields : List (Token × Int) :=
  [ (("attachment").toList, 1), (("attach_headers").toList, 2),
    (("body").toList, MT_COLOR_BODY), (("bold").toList, 4),
    (("error").toList, 5), (("hdrdefault").toList, 6),
    (("header").toList, 7), (("index").toList, MT_COLOR_INDEX),
    (("index_author").toList, 9), (("index_collapsed").toList, 10),
    (("index_date").toList, 11), (("index_flags").toList, 12),
    (("index_label").toList, 13), (("index_number").toList, 14),
    (("index_size").toList, 15), (("index_subject").toList, 16),
    (("index_tag").toList, 17), (("index_tags").toList, 18),
    (("indicator").toList, 19), (("italic").toList, 20),
    (("markers").toList, 21), (("message").toList, 22),
    (("normal").toList, 23), (("options").toList, 24),
    (("progress").toList, 25), (("prompt").toList, 26),
    (("quoted").toList, MT_COLOR_QUOTED), (("search").toList, 28),
    (("sidebar_background").toList, 29), (("sidebar_divider").toList, 30),
    (("sidebar_flagged").toList, 31), (("sidebar_highlight").toList, 32),
    (("sidebar_indicator").toList, 33), (("sidebar_new").toList, 34),
    (("sidebar_ordinary").toList, 35), (("sidebar_spool_file").toList, 36),
    (("sidebar_spoolfile").toList, 36), (("sidebar_unread").toList, 37),
    (("signature").toList, 38), (("status").toList, MT_COLOR_STATUS),
    (("stripe_even").toList, 40), (("stripe_odd").toList, 41),
    (("tilde").toList, MT_COLOR_TILDE), (("tree").toList, MT_COLOR_TREE),
    (("underline").toList, 44), (("warning").toList, 45) ]

/-- ComposeColorFields (command.c:109). -/
def ComposeColorFields : List (Token × Int) :=
  [ (("header").toList, 101), (("security_encrypt").toList, 102),
    (("security_sign").toList, 103), (("security_both").toList, 104),
    (("security_none").toList, 105) ]

/-- mutt_istr_equal (mutt/string.c): ASCII case-insensitive string equality. -/
def mutt_istr_equal (a b : Token) : Bool :=
  a.map Char.toLower = b.map Char.toLower

/-- mutt_map_get_value (mutt/mapping.c): look a name up case-insensitively in a
mapping table, returning -1 if it is absent. -/
def mutt_map_get_value (name : Token) : List (Token × Int) → Int
  | [] => -1
  | (n, v) :: rest => if mutt_istr_equal name n then v else mutt_map_get_value name rest

/-- Modelled from the spec: COLOR_QUOTES_MAX, the maximum supported quote depth
N, is defined in quoted.h outside src/; spec section 3 gives the quoted family
as indexed 0..N with N a fixed maximum, e.g. 9. -/
def COLOR_QUOTES_MAX : Int := 9

/-- Modelled from the spec: mutt_str_atoi_full (mutt/atoi.c, outside src/)
parses the entire string as a signed decimal integer ("the digit suffix, if
present, must be a valid integer"): an optional sign followed by at least one
digit, nothing else, within the range of a C int. -/
def mutt_str_atoi_full (s : List Char) : Option Int :=
  let core : List Char → Option Nat := fun ds =>
    if ds ≠ [] ∧ ds.all Char.isDigit then some (strtoulVal ds) else none
  match s with
  | '-' :: ds =>
    (core ds).bind (fun v => if (-(v : Int)) < -2147483648 then none else some (-(v : Int)))
  | '+' :: ds =>
    (core ds).bind (fun v => if 2147483647 < (v : Int) then none else some (v : Int))
  | ds =>
    (core ds).bind (fun v => if 2147483647 < (v : Int) then none else some (v : Int))

/-- Modelled from the spec: mutt_str_atoui_full (mutt/atoi.c, outside src/)
parses the entire string as an unsigned decimal integer (the status submatch
index is "validated as an unsigned integer"). -/
def mutt_str_atoui_full (s : List Char) : Option Nat :=
  if s ≠ [] ∧ s.all Char.isDigit then
    if (4294967295 : Nat) < strtoulVal s then none else some (strtoulVal s)
  else none

/-- Result of parse_object: the CommandResult, the resolved identifier and
quote level (the caller's initial `MT_COLOR_NONE` / 0 when untouched), the
token left in `buf` (the compose branch extracts a fresh one), the remaining
tokens, and the error message, if any. -/
structure ObjResult where
  rc : CommandResult
  cid : Int
  ql : Int
  buf : Token
  rest : List Token
  err : Option ErrMsg
deriving DecidableEq

/-- parse_object (command.c:157): identify a colour object. -/
def parse_object (buf : Token) (s : List Token) : ObjResult :=
  if mutt_str_startswith buf (("quoted").toList) then
    if cget buf 6 ≠ nulChar then
      match mutt_str_atoi_full (buf.drop 6) with
      | none => ⟨.warning, MT_COLOR_NONE, 0, buf, s, some (.noSuchObject buf)⟩
      | some val =>
        if COLOR_QUOTES_MAX < val then
          ⟨.warning, MT_COLOR_NONE, 0, buf, s, some (.noSuchObject buf)⟩
        else ⟨.success, MT_COLOR_QUOTED, val, buf, s, none⟩
    else ⟨.success, MT_COLOR_QUOTED, 0, buf, s, none⟩
  else if mutt_istr_equal buf (("compose").toList) then
    match s with
    | [] => ⟨.warning, MT_COLOR_NONE, 0, buf, s, some .tooFewArguments⟩
    | t :: rest =>
      if mutt_map_get_value t ComposeColorFields = -1 then
        ⟨.warning, MT_COLOR_NONE, 0, t, rest, some (.noSuchObject t)⟩
      else ⟨.success, mutt_map_get_value t ComposeColorFields, 0, t, rest, none⟩
  else
    if mutt_map_get_value buf ColorFields = -1 then
      ⟨.warning, MT_COLOR_NONE, 0, buf, s, some (.noSuchObject buf)⟩
    else ⟨.success, mutt_map_get_value buf ColorFields, 0, buf, s, none⟩

/-- Behaviour of the external collaborators of command.c (globals, curses
probe, and the colour storage tiers whose code is outside src/).  The tier
oracles give, for each possible call, whether the tier handled the call and
with what CommandResult. -/
structure ColorEnv where
  startupComplete : Bool
  optNoCurses : Bool
  useDefaultColorsOk : Bool
  hasPattern : Int → Bool
  regexColorListResult : Int → Token → Int → Int → Nat → Option CommandResult
  quotedColorResult : Int → Int → Int → Nat → Int → Option CommandResult
  statusListRc : Int → Token → Int → Int → Nat → Nat → CommandResult
  simpleSetOk : Int → Int → Int → Nat → Bool
  regexUncolorResult : Int → Option Token → Bool → Bool
  quotedUncolorRc : Int → Int → CommandResult

/-- Result of a callback (parse_color_pair / parse_attr_spec): the
CommandResult, the token buffer and remaining tokens after it consumed its
arguments, the fg/bg/attrs it wrote (from initial 0/0/0), and its error. -/
structure CbResult where
  rc : CommandResult
  buf : Token
  rest : List Token
  fg : Int
  bg : Int
  attrs : Nat
  err : Option ErrMsg

/-- A parser_callback_t: takes the current token buffer and remaining tokens. -/
abbrev Callback := Token → List Token → CbResult

/-- Modelled from the spec: parse_attr_spec (parse/parse_color.c, outside
src/), the mono-only variant of the attribute/colour-pair parser.  Per spec
sections 4.2 and 6 it consumes the next token as an attribute name and yields
the attribute bits; "only attributes are parsed (no foreground/background)",
so fg and bg keep the caller's initial 0.  `attrValue` is the attribute-name
table it consults. -/
def attrValue (t : Token) : Option Nat :=
  if mutt_istr_equal t (("bold").toList) then some A_BOLD
  else if mutt_istr_equal t (("underline").toList) then some A_UNDERLINE
  else if mutt_istr_equal t (("reverse").toList) then some A_REVERSE
  else if mutt_istr_equal t (("standout").toList) then some A_STANDOUT
  else if mutt_istr_equal t (("blink").toList) then some A_BLINK
  else if mutt_istr_equal t (("italic").toList) then some A_ITALIC
  else if mutt_istr_equal t (("normal").toList) then some 0
  else none

/-- The mono-only attribute parser itself; see `attrValue`. -/
def parse_attr_spec : Callback := fun b s =>
  match s with
  | [] => ⟨.warning, b, [], 0, 0, 0, some .tooFewArguments⟩
  | t :: rest =>
    match attrValue t with
    | some attrs => ⟨.success, t, rest, 0, 0, attrs, none⟩
    | none => ⟨.warning, t, rest, 0, 0, 0, some (.badAttr t)⟩

/-- Regex-pattern extraction step of parse_color (command.c:362-373): if the
resolved object is pattern-capable and not the status object, the next token
becomes the pattern (defaulting to ".*" when none remains); otherwise the token
buffer and remaining tokens are left as the callback left them. -/
def regexExtract (env : ColorEnv) (cid : Int) (rbuf : Token) (rrest : List Token) :
    Token × List Token :=
  if env.hasPattern cid ∧ cid ≠ MT_COLOR_STATUS then
    match rrest with
    | [] => ((".*").toList, ([] : List Token))
    | t :: ts => (t, ts)
  else (rbuf, rrest)

/-- parse_color (command.c:327): parse a 'color' or 'mono' command.  Transcribed
branch for branch; the `return rc;` statements after the regex-list, quoted
and status tier calls (command.c:402, 408, 440) return without reaching the
notification block at command.c:451-457, which only the simple-colour path
falls through to. -/
def parse_color (env : ColorEnv) (cb : Callback) (s0 : List Token)
    (dry_run : Bool) (_color : Bool) : CmdOut :=
  match s0 with
  | [] =>
    if env.startupComplete then ⟨.success, [.colorDump], none⟩
    else ⟨.warning, [], some .tooFewArguments⟩
  | tok0 :: s1 =>
    let ob := parse_object tok0 s1
    if ob.rc ≠ .success then ⟨ob.rc, [], ob.err⟩
    else
      let r := cb ob.buf ob.rest
      if r.rc ≠ .success then ⟨r.rc, [], r.err⟩
      else
        let bs := regexExtract env ob.cid r.buf r.rest
        if bs.2 ≠ [] ∧ ob.cid ≠ MT_COLOR_STATUS then ⟨.warning, [], some .tooManyArguments⟩
        else if dry_run then ⟨.success, [], none⟩
        else if ¬env.optNoCurses ∧
            (r.fg = COLOR_DEFAULT ∨ r.bg = COLOR_DEFAULT ∨ ob.cid = MT_COLOR_TREE) ∧
            ¬env.useDefaultColorsOk then
          ⟨.error, [], some .defaultColorsNotSupported⟩
        else
          match env.regexColorListResult ob.cid bs.1 r.fg r.bg r.attrs with
          | some rc => ⟨rc, [.regexColorList ob.cid bs.1 r.fg r.bg r.attrs], none⟩
          | none =>
            match env.quotedColorResult ob.cid r.fg r.bg r.attrs ob.ql with
            | some rc => ⟨rc, [.quotedColor ob.cid r.fg r.bg r.attrs ob.ql], none⟩
            | none =>
              if ob.cid = MT_COLOR_STATUS ∧ bs.2 ≠ [] then
                let pat := bs.2.headD []
                let s4 := bs.2.tail
                match s4 with
                | [] =>
                  ⟨env.statusListRc ob.cid pat r.fg r.bg r.attrs 0,
                    [.statusColorList ob.cid pat r.fg r.bg r.attrs 0], none⟩
                | t :: s5 =>
                  match mutt_str_atoui_full t with
                  | none => ⟨.warning, [], some (.invalidNumber t)⟩
                  | some m =>
                    if s5 ≠ [] then ⟨.warning, [], some .tooManyArguments⟩
                    else
                      ⟨env.statusListRc ob.cid pat r.fg r.bg r.attrs m,
                        [.statusColorList ob.cid pat r.fg r.bg r.attrs m], none⟩
              else
                if env.simpleSetOk ob.cid r.fg r.bg r.attrs then
                  ⟨.success, [.simpleSet ob.cid r.fg r.bg r.attrs, .notify ob.cid], none⟩
                else ⟨.error, [.simpleSet ob.cid r.fg r.bg r.attrs], none⟩

/-- Loop of parse_uncolor (command.c:292-305): walk the remaining pattern
tokens; `*` removes everything and returns at once, otherwise each token is
removed individually, and a final dump happens if anything changed. -/
def uncolorLoop (env : ColorEnv) (cid : Int) (uncolor : Bool) :
    List Token → Bool → List Effect → CmdOut
  | [], changes, acc =>
    if changes then ⟨.success, acc ++ [.regexDumpAll], none⟩ else ⟨.success, acc, none⟩
  | t :: rest, changes, acc =>
    if t = ("*").toList then
      if env.regexUncolorResult cid none uncolor then
        ⟨.success, acc ++ [.regexUncolor cid none uncolor], none⟩
      else ⟨.error, acc ++ [.regexUncolor cid none uncolor], none⟩
    else
      uncolorLoop env cid uncolor rest
        (changes || env.regexUncolorResult cid (some t) uncolor)
        (acc ++ [.regexUncolor cid (some t) uncolor])

/-- parse_uncolor (command.c:227): parse an 'uncolor' or 'unmono' command
(`uncolor = true` for 'uncolor', false for 'unmono'). -/
def parse_uncolor (env : ColorEnv) (s0 : List Token) (uncolor : Bool) : CmdOut :=
  let buf := s0.headD []
  let s1 := s0.tail
  if buf = ("*").toList then ⟨.success, [.colorsCleanup], none⟩
  else
    let ob := parse_object buf s1
    if ob.rc ≠ .success then ⟨ob.rc, [], ob.err⟩
    else if ob.cid = -1 then ⟨.error, [], some (.noSuchObject ob.buf)⟩
    else if ob.cid = MT_COLOR_QUOTED then
      ⟨env.quotedUncolorRc ob.cid ob.ql, [.quotedUncolor ob.cid ob.ql], none⟩
    else if ob.cid = MT_COLOR_STATUS ∧ ob.rest = [] then
      ⟨.success, [.simpleReset ob.cid], none⟩
    else if ¬env.hasPattern ob.cid then
      ⟨.success, [.simpleReset ob.cid], none⟩
    else if env.optNoCurses then
      ⟨.success, [], none⟩
    else if ob.rest = [] then
      if env.regexUncolorResult ob.cid none uncolor then
        ⟨.success, [.regexUncolor ob.cid none uncolor], none⟩
      else ⟨.error, [.regexUncolor ob.cid none uncolor], none⟩
    else
      uncolorLoop env ob.cid uncolor ob.rest false []

/-- mutt_parse_uncolor (command.c:465): with curses disabled the line is only
consumed; otherwise delegate to parse_uncolor with `uncolor = true`
(curses_colors_dump is pure logging and is not recorded). -/
def mutt_parse_uncolor (env : ColorEnv) (s : List Token) : CmdOut :=
  if env.optNoCurses then ⟨.success, [], none⟩
  else parse_uncolor env s true

/-- mutt_parse_unmono (command.c:482-487): the whole body is
`*s->dptr = '\0'; return MUTT_CMD_SUCCESS;` — the remaining tokens are
discarded and nothing else happens. -/
def mutt_parse_unmono (_s : List Token) : CmdOut :=
  ⟨.success, [], none⟩

/-- mutt_parse_color (command.c:492): 'color' command; dry-run iff curses is
disabled, colour-capable callback parse_color_pair (passed in as `cb`). -/
def mutt_parse_color (env : ColorEnv) (cb : Callback) (s : List Token) : CmdOut :=
  parse_color env cb s env.optNoCurses true

/-- mutt_parse_mono (command.c:506): 'mono' command; never a dry run, callback
parse_attr_spec, `color = false`. -/
def mutt_parse_mono (env : ColorEnv) (s : List Token) : CmdOut :=
  parse_color env parse_attr_spec s false false

/-- A run where the pattern (regex) tier handles the directive and reports
success: curses active, terminal supports default colours, `body` is
pattern-capable. -/
def envRegex : ColorEnv where
  startupComplete := true
  optNoCurses := false
  useDefaultColorsOk := true
  hasPattern := fun c => c = MT_COLOR_BODY
  regexColorListResult := fun _ _ _ _ _ => some .success
  quotedColorResult := fun _ _ _ _ _ => none
  statusListRc := fun _ _ _ _ _ _ => .success
  simpleSetOk := fun _ _ _ _ => true
  regexUncolorResult := fun _ _ _ => true
  quotedUncolorRc := fun _ _ => .success

/-- A run where the quoted tier handles the directive and reports success. -/
def envQuoted : ColorEnv where
  startupComplete := true
  optNoCurses := false
  useDefaultColorsOk := true
  hasPattern := fun _ => false
  regexColorListResult := fun _ _ _ _ _ => none
  quotedColorResult := fun _ _ _ _ _ => some .success
  statusListRc := fun _ _ _ _ _ _ => .success
  simpleSetOk := fun _ _ _ _ => true
  regexUncolorResult := fun _ _ _ => true
  quotedUncolorRc := fun _ _ => .success

/-- A run where neither the regex-list nor the quoted tier handles the
directive, so the status and simple paths are reachable. -/
def envPlain : ColorEnv where
  startupComplete := true
  optNoCurses := false
  useDefaultColorsOk := true
  hasPattern := fun c => c = MT_COLOR_BODY ∨ c = MT_COLOR_INDEX
  regexColorListResult := fun _ _ _ _ _ => none
  quotedColorResult := fun _ _ _ _ _ => none
  statusListRc := fun _ _ _ _ _ _ => .success
  simpleSetOk := fun _ _ _ _ => true
  regexUncolorResult := fun _ _ _ => true
  quotedUncolorRc := fun _ _ => .success

/-- A terminal without default-colour support (use_default_colors() fails),
curses active. -/
def envNoDefaults : ColorEnv where
  startupComplete := true
  optNoCurses := false
  useDefaultColorsOk := false
  hasPattern := fun _ => false
  regexColorListResult := fun _ _ _ _ _ => none
  quotedColorResult := fun _ _ _ _ _ => none
  statusListRc := fun _ _ _ _ _ _ => .success
  simpleSetOk := fun _ _ _ _ => true
  regexUncolorResult := fun _ _ _ => true
  quotedUncolorRc := fun _ _ => .success

/-- A colour-capable callback oracle for 'color' runs: consumes two tokens as
foreground and background, yielding red (1) on blue (4). -/
def cbPair : Callback := fun b s =>
  match s with
  | _f :: g :: rest => ⟨.success, g, rest, 1, 4, 0, none⟩
  | _ => ⟨.warning, b, s, 0, 0, 0, some .tooFewArguments⟩

/-- Specification-side reading of claim C7 ("begins with the two-byte
introducer (escape + `[`), followed by zero or more ASCII digits/semicolons,
terminated by `m`"): the string has the introducer at bytes 0 and 1, then `n`
digit/semicolon bytes, then an `m`. -/
def ansiSeqSpec (s : List Char) (n : Nat) : Prop :=
  cget s 0 = escChar ∧ cget s 1 = '[' ∧
    (∀ i, i < n → isSeqParamChar (cget s (2 + i)) = true) ∧ cget s (2 + n) = 'm'

/-
Helper lemmas.
-/

@[simp] theorem cget_nil (i : Nat) : cget [] i = Char.ofNat 0 := by
  cases i <;> rfl

@[simp] theorem cget_cons_zero (c : Char) (cs : List Char) : cget (c :: cs) 0 = c := rfl

@[simp] theorem cget_cons_succ (c : Char) (cs : List Char) (i : Nat) :
    cget (c :: cs) (i + 1) = cget cs i := rfl

theorem cget_drop (l : List Char) (n i : Nat) : cget (l.drop n) i = cget l (n + i) := by
  induction n generalizing l with
  | zero => simp
  | succ m ih =>
    cases l with
    | nil => simp
    | cons c cs =>
      have : m + 1 + i = (m + i) + 1 := by omega
      rw [List.drop_succ_cons, ih cs, this, cget_cons_succ]

theorem scanParams_param (l : List Char) :
    ∀ i, i < scanParams l → isSeqParamChar (cget l i) = true := by
  induction l with
  | nil => intro i h; simp [scanParams] at h
  | cons c cs ih =>
    intro i h
    by_cases hc : isSeqParamChar c
    · cases i with
      | zero => simpa using hc
      | succ j =>
        have hj : j < scanParams cs := by
          simp only [scanParams, hc, if_true] at h
          omega
        simpa using ih j hj
    · simp [scanParams, hc] at h

theorem scanParams_end (l : List Char) : isSeqParamChar (cget l (scanParams l)) = false := by
  induction l with
  | nil => decide
  | cons c cs ih =>
    by_cases hc : isSeqParamChar c
    · simpa [scanParams, hc] using ih
    · simp only [scanParams, hc, if_false, cget_cons_zero]
      exact Bool.eq_false_iff.mpr hc

theorem scanParams_ge (l : List Char) :
    ∀ n, (∀ i, i < n → isSeqParamChar (cget l i) = true) → n ≤ scanParams l := by
  induction l with
  | nil =>
    intro n h
    cases n with
    | zero => exact Nat.zero_le _
    | succ m => exfalso; have h0 := h 0 (by omega); rw [cget_nil] at h0; exact absurd h0 (by decide)
  | cons c cs ih =>
    intro n h
    cases n with
    | zero => exact Nat.zero_le _
    | succ m =>
      have hc : isSeqParamChar c = true := by simpa using h 0 (by omega)
      have hm : m ≤ scanParams cs :=
        ih m (fun i hi => by simpa using h (i + 1) (by omega))
      simp only [scanParams, hc, if_true]
      omega

/-- Equivalence between the executable scan of the sequence recognizer and the
specification-side predicate. -/
theorem seq_length_eq_of_spec (s : List Char) :
    ∀ n, ansiSeqSpec s n → ansi_color_seq_length s = n + 3 := by
  intro n hn
  obtain ⟨h0, h1, hp, hm⟩ := hn
  have h0ne : cget s 0 ≠ nulChar := by rw [h0]; decide
  have hk : scanParams (s.drop 2) = n := by
    have hge : n ≤ scanParams (s.drop 2) :=
      scanParams_ge _ n (fun i hi => by rw [cget_drop]; exact hp i hi)
    have hle : scanParams (s.drop 2) ≤ n := by
      by_contra hlt
      push_neg at hlt
      have hpar := scanParams_param (s.drop 2) n hlt
      rw [cget_drop, hm] at hpar
      exact absurd hpar (by decide)
    omega
  unfold ansi_color_seq_length
  rw [if_neg h0ne, if_neg (not_not_intro ⟨h0, h1⟩)]
  simp only [hk, hm, if_pos]
  omega

theorem seq_length_pos_iff (s : List Char) :
    0 < ansi_color_seq_length s ↔ ∃ n, ansiSeqSpec s n := by
  constructor
  · intro hpos
    unfold ansi_color_seq_length at hpos
    by_cases h0 : cget s 0 = nulChar
    · rw [if_pos h0] at hpos; omega
    · rw [if_neg h0] at hpos
      by_cases h01 : cget s 0 = escChar ∧ cget s 1 = '['
      · rw [if_neg (not_not_intro h01)] at hpos
        by_cases hm : cget s (2 + scanParams (s.drop 2)) = 'm'
        · exact ⟨scanParams (s.drop 2), h01.1, h01.2,
            fun i hi => by rw [← cget_drop]; exact scanParams_param _ i hi, hm⟩
        · simp only [hm, if_false] at hpos; omega
      · rw [if_pos h01] at hpos; omega
  · rintro ⟨n, hn⟩
    rw [seq_length_eq_of_spec s n hn]
    omega

/-- A recognised sequence is at least 3 bytes long. -/
theorem seq_length_ge_three (s : List Char) (h : 0 < ansi_color_seq_length s) :
    3 ≤ ansi_color_seq_length s := by
  obtain ⟨n, hn⟩ := (seq_length_pos_iff s).mp h
  rw [seq_length_eq_of_spec s n hn]
  omega

/-- The loop exits as soon as the position reaches the sequence length,
whatever the fuel. -/
theorem parseLoop_done (buf : List Char) (seq_len fuel pos : Nat) (st : AnsiColor)
    (h : seq_len ≤ pos) : parseLoop buf seq_len fuel pos st = some (pos, st) := by
  cases fuel <;> simp [parseLoop, h]

/-- With no fuel left and the loop not yet done, the run is cut off. -/
theorem parseLoop_zero (buf : List Char) (seq_len pos : Nat) (st : AnsiColor)
    (h : ¬seq_len ≤ pos) : parseLoop buf seq_len 0 pos st = none := by
  simp [parseLoop, h]

/-- A loop iteration that continues at a new position and state. -/
theorem parseLoop_cont (buf : List Char) (seq_len f pos : Nat) (st : AnsiColor)
    (p : Nat) (s : AnsiColor) (h : ¬seq_len ≤ pos)
    (hs : parseStep buf seq_len pos st = .cont p s) :
    parseLoop buf seq_len (f + 1) pos st = parseLoop buf seq_len f p s := by
  rw [parseLoop, if_neg h, hs]

/-- A loop iteration that returns out of the function. -/
theorem parseLoop_ret (buf : List Char) (seq_len f pos : Nat) (st : AnsiColor)
    (n : Nat) (h : ¬seq_len ≤ pos) (hs : parseStep buf seq_len pos st = .ret n) :
    parseLoop buf seq_len (f + 1) pos st = some (n, st) := by
  rw [parseLoop, if_neg h, hs]

/-- Unfolding of ansi_color_parse_single in the parsing (non-dry-run, non-NULL)
case, once the sequence is known to be recognised. -/
theorem parse_single_eq (buf : List Char) (st : AnsiColor) (fuel : Nat)
    (h : ansi_color_seq_length buf ≠ 0) :
    ansi_color_parse_single buf (some st) false fuel =
      (parseLoop buf (ansi_color_seq_length buf) fuel 2 st).map (fun r => (r.1, some r.2)) := by
  unfold ansi_color_parse_single
  rw [if_neg h]

/-- With the parameter cursor stuck on the semicolon at index 4 of seq22, one
loop iteration returns to the same state, so no amount of fuel finishes. -/
theorem parseLoop_seq22_stuck (st : AnsiColor) :
    ∀ fuel, parseLoop seq22 7 fuel 4 st = none := by
  intro fuel
  induction fuel with
  | zero => exact parseLoop_zero seq22 7 4 st (by omega)
  | succ f ih =>
    rw [parseLoop_cont seq22 7 f 4 st 4 st (by omega) rfl]
    exact ih

/-- C1: the claim says `ansi_color_parse_single` terminates on every input
with a bounded byte count and that an unknown parameter such as the `22` in
`"\x1b[22;1m"` is skipped past.  The code refutes the claim: the skip loop
(parse_ansi.c:253-254) stops AT the next `';'` without consuming it, and no
branch of the parameter loop handles a `';'`, so on `"\x1b[22;1m"` with a
non-NULL accumulator and `dry_run = false` the position sticks at index 4
forever: the loop never finishes for any fuel.  (With `dry_run = true` the
same input returns its sequence length 7, confirming the sequence itself is
recognised.)  This contradicts the function's own `@retval num` documentation
and spec section 5 ("all operations are bounded by input length"), so the code,
not the claim, is wrong. -/
theorem ansi_parse_unknown_param_diverges :
    (∀ (st : AnsiColor) (fuel : Nat),
      ansi_color_parse_single seq22 (some st) false fuel = none) ∧
    (∀ (st : AnsiColor) (fuel : Nat),
      ansi_color_parse_single seq22 (some st) true fuel = some (7, some st)) := by
  constructor
  · intro st fuel
    rw [parse_single_eq seq22 st fuel (by decide),
      (by decide : ansi_color_seq_length seq22 = 7)]
    cases fuel with
    | zero =>
      rw [parseLoop_zero seq22 7 2 st (by omega)]
      rfl
    | succ f =>
      rw [parseLoop_cont seq22 7 f 2 st 4 st (by omega) rfl, parseLoop_seq22_stuck st f]
      rfl
  · intro st fuel
    rfl

/-- C7: `ansi_color_seq_length` returns a positive length exactly when the
string begins with escape + `[`, followed by zero or more ASCII
digits/semicolons, terminated by `m`; in that case the length counts through
the `m` (introducer + `n` parameter bytes + terminator = `n + 3`); otherwise it
returns 0.  Concretely the length of `"\x1b[1;32m"` is 7 and of `"not-ansi"`
is 0. -/
theorem ansi_color_seq_length_spec (s : List Char) :
    (0 < ansi_color_seq_length s ↔ ∃ n, ansiSeqSpec s n) ∧
    (∀ n, ansiSeqSpec s n → ansi_color_seq_length s = n + 3) ∧
    ansi_color_seq_length seq132 = 7 ∧
    ansi_color_seq_length notAnsi = 0 :=
  ⟨seq_length_pos_iff s, seq_length_eq_of_spec s, by decide, by decide⟩

/-- Witness for C7 at concrete inputs: `"\x1b[1;32m"` satisfies the
specification shape with 4 parameter bytes, and the theorem turns that into
the length 7. -/
theorem ansi_color_seq_length_spec_witness :
    ansiSeqSpec seq132 4 ∧ ansi_color_seq_length seq132 = 4 + 3 := by
  have hspec : ansiSeqSpec seq132 4 := by
    refine ⟨by decide, by decide, ?_, by decide⟩
    intro i hi
    interval_cases i <;> decide
  exact ⟨hspec, (ansi_color_seq_length_spec seq132).2.1 4 hspec⟩

/-- Counterexample to C3 as stated: parsing `"\x1b[38;5;300m"` onto an
accumulator with fg 2, bg 3 and no attributes returns the full consumed length
11 but does NOT leave the attributes as they were: the attribute word changes
from 0 to `A_BLINK` (8). -/
theorem ansi_palette_out_of_range_corrupts_attrs :
    ansi_color_parse_single seq300 (some ⟨2, 3, 0, none⟩) false 9 =
      some (11, some ⟨2, 3, A_BLINK, none⟩) ∧
    (⟨2, 3, A_BLINK, none⟩ : AnsiColor).attrs ≠ (⟨2, 3, 0, none⟩ : AnsiColor).attrs := by
  constructor
  · decide
  · decide

/-- C3 amended: for every accumulator state, parsing `"\x1b[38;5;200m"` sets
the foreground to palette index 200 (consuming all 11 bytes); parsing
`"\x1b[38;5;300m"` (palette index out of range) leaves the foreground and
background exactly as they were and still returns the consistent consumed
length 11, but it does not leave the attributes untouched: the failure path
`pos += ansi_skip_sequence(buf + pos)` stops at the first `';'`, so only
`"38;"` is skipped and the following `"5;"` is re-parsed as SGR parameter 5,
or-ing `A_BLINK` into the accumulated attributes. -/
theorem ansi_palette_parse_amended :
    (∀ (st : AnsiColor) (fuel : Nat),
      ansi_color_parse_single seq200 (some st) false (fuel + 2) =
        some (11, some { st with fg := 200 })) ∧
    (∀ (st : AnsiColor) (fuel : Nat),
      ansi_color_parse_single seq300 (some st) false (fuel + 3) =
        some (11, some { st with attrs := st.attrs ||| A_BLINK })) := by
  constructor
  · intro st fuel
    rw [parse_single_eq seq200 st (fuel + 2) (by decide),
      (by decide : ansi_color_seq_length seq200 = 11),
      parseLoop_cont seq200 11 (fuel + 1) 2 st 10 { st with fg := 200 } (by omega) rfl,
      parseLoop_cont seq200 11 fuel 10 { st with fg := 200 } 11 { st with fg := 200 }
        (by omega) rfl,
      parseLoop_done seq200 11 fuel 11 { st with fg := 200 } (by omega)]
    rfl
  · intro st fuel
    rw [parse_single_eq seq300 st (fuel + 3) (by decide),
      (by decide : ansi_color_seq_length seq300 = 11),
      parseLoop_cont seq300 11 (fuel + 2) 2 st 5 st (by omega) rfl,
      parseLoop_cont seq300 11 (fuel + 1) 5 st 7 { st with attrs := st.attrs ||| A_BLINK }
        (by omega) rfl,
      parseLoop_cont seq300 11 fuel 7 { st with attrs := st.attrs ||| A_BLINK } 11
        { st with attrs := st.attrs ||| A_BLINK } (by omega) rfl,
      parseLoop_done seq300 11 fuel 11 { st with attrs := st.attrs ||| A_BLINK } (by omega)]
    rfl

/-- C8: for every prior accumulator state, parsing `"\x1b[0m"` yields the fully
cleared AttrColor (default foreground and background, zero attributes, and the
cached curses handle cleared), consuming all 4 bytes; and the leading zero of
the parameter `01` in `"\x1b[01m"` is skipped as an ordinary leading zero, so
`A_BOLD` is or-ed in without clearing anything. -/
theorem ansi_reset_and_leading_zero :
    (∀ (st : AnsiColor) (fuel : Nat),
      ansi_color_parse_single seq0m (some st) false (fuel + 1) =
        some (4, some ⟨COLOR_DEFAULT, COLOR_DEFAULT, 0, none⟩)) ∧
    (∀ (st : AnsiColor) (fuel : Nat),
      ansi_color_parse_single seq01m (some st) false (fuel + 2) =
        some (5, some { st with attrs := st.attrs ||| A_BOLD })) := by
  constructor
  · intro st fuel
    rw [parse_single_eq seq0m st (fuel + 1) (by decide),
      (by decide : ansi_color_seq_length seq0m = 4),
      parseLoop_cont seq0m 4 fuel 2 st 4 ⟨COLOR_DEFAULT, COLOR_DEFAULT, 0, none⟩
        (by omega) rfl,
      parseLoop_done seq0m 4 fuel 4 ⟨COLOR_DEFAULT, COLOR_DEFAULT, 0, none⟩ (by omega)]
    rfl
  · intro st fuel
    rw [parse_single_eq seq01m st (fuel + 2) (by decide),
      (by decide : ansi_color_seq_length seq01m = 5),
      parseLoop_cont seq01m 5 (fuel + 1) 2 st 3 st (by omega) rfl,
      parseLoop_cont seq01m 5 fuel 3 st 5 { st with attrs := st.attrs ||| A_BOLD }
        (by omega) rfl,
      parseLoop_done seq01m 5 fuel 5 { st with attrs := st.attrs ||| A_BOLD } (by omega)]
    rfl

/-- The `"38;5;"` prefix test of the parameter loop, at parameter start
position 2, in terms of individual bytes. -/
theorem startswith385_iff (buf : List Char) (h2 : cget buf 2 = '3') (h3 : cget buf 3 = '8')
    (h4 : cget buf 4 = ';') :
    mutt_str_startswith (buf.drop 2) pfx385 = true ↔
      cget buf 5 = '5' ∧ cget buf 6 = ';' := by
  rw [mutt_str_startswith, decide_eq_true_iff]
  constructor
  · intro h
    constructor
    · have h5 := h 3 (by decide)
      rw [cget_drop] at h5
      exact h5
    · have h6 := h 4 (by decide)
      rw [cget_drop] at h6
      exact h6
  · rintro ⟨h5, h6⟩ i hi
    rw [cget_drop]
    have hi5 : i < 5 := by simpa [pfx385, pfx382] using hi
    interval_cases i
    · exact h2
    · exact h3
    · exact h4
    · exact h5
    · exact h6

/-- The `"38;2;"` prefix test of the parameter loop, at parameter start
position 2, in terms of individual bytes. -/
theorem startswith382_iff (buf : List Char) (h2 : cget buf 2 = '3') (h3 : cget buf 3 = '8')
    (h4 : cget buf 4 = ';') :
    mutt_str_startswith (buf.drop 2) pfx382 = true ↔
      cget buf 5 = '2' ∧ cget buf 6 = ';' := by
  rw [mutt_str_startswith, decide_eq_true_iff]
  constructor
  · intro h
    constructor
    · have h5 := h 3 (by decide)
      rw [cget_drop] at h5
      exact h5
    · have h6 := h 4 (by decide)
      rw [cget_drop] at h6
      exact h6
  · rintro ⟨h5, h6⟩ i hi
    rw [cget_drop]
    have hi5 : i < 5 := by simpa [pfx385, pfx382] using hi
    interval_cases i
    · exact h2
    · exact h3
    · exact h4
    · exact h5
    · exact h6

/-- C9: whenever the recognised sequence begins with `"\x1b[38;"` and the text
after `"38;"` matches neither `5;<digit>` nor `2;<digit>`, the parser, called
with a non-NULL accumulator and `dry_run = false`, hits the bare
`return pos;` (parse_ansi.c:178) on its first iteration and returns 2 — a
strict prefix of the recognised sequence length — leaving the accumulator
untouched. -/
theorem ansi_truecolor_unknown_subparam_returns_2
    (buf : List Char) (st : AnsiColor) (fuel : Nat)
    (hpos : 0 < ansi_color_seq_length buf)
    (h2 : cget buf 2 = '3') (h3 : cget buf 3 = '8') (h4 : cget buf 4 = ';')
    (h5 : ¬(cget buf 5 = '5' ∧ cget buf 6 = ';' ∧ (cget buf 7).isDigit = true))
    (h6 : ¬(cget buf 5 = '2' ∧ cget buf 6 = ';' ∧ (cget buf 7).isDigit = true)) :
    ansi_color_parse_single buf (some st) false (fuel + 1) = some (2, some st) ∧
      2 < ansi_color_seq_length buf := by
  have h3le := seq_length_ge_three buf hpos
  have hc5 : ¬(mutt_str_startswith (buf.drop 2) pfx385 = true ∧
      (cget buf 7).isDigit = true) := by
    rintro ⟨a, b⟩
    obtain ⟨x, y⟩ := (startswith385_iff buf h2 h3 h4).mp a
    exact h5 ⟨x, y, b⟩
  have hc2 : ¬(mutt_str_startswith (buf.drop 2) pfx382 = true ∧
      (cget buf 7).isDigit = true) := by
    rintro ⟨a, b⟩
    obtain ⟨x, y⟩ := (startswith382_iff buf h2 h3 h4).mp a
    exact h6 ⟨x, y, b⟩
  have hstep : parseStep buf (ansi_color_seq_length buf) 2 st = .ret 2 := by
    simp [parseStep, h2, h3, h4, ansi_is_end_char, hc5, hc2,
      (show ('3' : Char) ≠ '0' from by decide), (show ('3' : Char) ≠ '1' from by decide),
      (show ('8' : Char) ≠ 'm' from by decide), (show ('8' : Char) ≠ ';' from by decide),
      (show ¬(('8' : Char) < '8') from by decide), (show ('8' : Char) ≠ '9' from by decide)]
  constructor
  · rw [parse_single_eq buf st (fuel + 1) (by omega),
      parseLoop_ret buf (ansi_color_seq_length buf) fuel 2 st 2 (by omega) hstep]
    rfl
  · omega

/-- Witness for C9: the concrete input `"\x1b[38;7m"` (sequence length 7, the
byte after `"38;"` is `7`, matching neither sub-form) makes the parser return
2 from a fresh accumulator. -/
theorem ansi_truecolor_unknown_subparam_returns_2_witness :
    ansi_color_parse_single seq387 (some ⟨0, 0, 0, none⟩) false 1 =
      some (2, some ⟨0, 0, 0, none⟩) ∧ 2 < ansi_color_seq_length seq387 :=
  ansi_truecolor_unknown_subparam_returns_2 seq387 ⟨0, 0, 0, none⟩ 0
    (by decide) (by decide) (by decide) (by decide) (by decide) (by decide)

/-- C10: the basic-colour branches are asymmetric.  A basic foreground
parameter `3x` (x in 0..7) sets the foreground only when the digit is
immediately followed by `;` or `m` (otherwise the parameter is skipped
unchanged), whereas a basic background parameter `4x` (x in 0..7) sets the
background and advances three bytes with no check of the following byte.
Concretely, `"\x1b[453m"` sets the background to 5 while `"\x1b[353m"` leaves
the whole accumulator unchanged. -/
theorem ansi_bg_no_terminator_check :
    (∀ (buf : List Char) (seq_len pos : Nat) (st : AnsiColor),
      cget buf pos = '4' → '0' ≤ cget buf (pos + 1) → cget buf (pos + 1) < '8' →
      parseStep buf seq_len pos st =
        .cont (pos + 3) { st with bg := ((cget buf (pos + 1)).toNat : Int) - 48 }) ∧
    (∀ (buf : List Char) (seq_len pos : Nat) (st : AnsiColor),
      cget buf pos = '3' → '0' ≤ cget buf (pos + 1) → cget buf (pos + 1) < '8' →
      ansi_is_end_char (cget buf (pos + 2)) = false →
      parseStep buf seq_len pos st = .cont (pos + ansi_skip_sequence (buf.drop pos)) st) ∧
    (∀ (st : AnsiColor) (fuel : Nat),
      ansi_color_parse_single seq453 (some st) false (fuel + 2) =
        some (6, some { st with bg := 5 })) ∧
    (∀ (st : AnsiColor) (fuel : Nat),
      ansi_color_parse_single seq353 (some st) false (fuel + 1) = some (6, some st)) := by
  refine ⟨?_, ?_, ?_, ?_⟩
  · intro buf seq_len pos st h0 hge hlt
    have hm : cget buf (pos + 1) ≠ 'm' := by
      intro h; rw [h] at hlt; exact absurd hlt (by decide)
    have hsc : cget buf (pos + 1) ≠ ';' := by
      intro h; rw [h] at hlt; exact absurd hlt (by decide)
    have hend : ansi_is_end_char (cget buf (pos + 1)) = false := by
      simp [ansi_is_end_char, hm, hsc]
    simp [parseStep, h0, hend, hge, hlt,
      (show ('4' : Char) ≠ '0' from by decide), (show ('4' : Char) ≠ '1' from by decide),
      (show ('4' : Char) ≠ '3' from by decide)]
  · intro buf seq_len pos st h0 hge hlt hend2
    have hm : cget buf (pos + 1) ≠ 'm' := by
      intro h; rw [h] at hlt; exact absurd hlt (by decide)
    have hsc : cget buf (pos + 1) ≠ ';' := by
      intro h; rw [h] at hlt; exact absurd hlt (by decide)
    have h8 : cget buf (pos + 1) ≠ '8' := by
      intro h; rw [h] at hlt; exact absurd hlt (by decide)
    have h9 : cget buf (pos + 1) ≠ '9' := by
      intro h; rw [h] at hlt; exact absurd hlt (by decide)
    have hend : ansi_is_end_char (cget buf (pos + 1)) = false := by
      simp [ansi_is_end_char, hm, hsc]
    simp [parseStep, h0, hend, hend2, hge, hlt, h8, h9,
      (show ('3' : Char) ≠ '0' from by decide), (show ('3' : Char) ≠ '1' from by decide),
      (show ('3' : Char) ≠ '4' from by decide), (show ('3' : Char) ≠ '5' from by decide),
      (show ('3' : Char) ≠ '7' from by decide)]
  · intro st fuel
    rw [parse_single_eq seq453 st (fuel + 2) (by decide),
      (by decide : ansi_color_seq_length seq453 = 6),
      parseLoop_cont seq453 6 (fuel + 1) 2 st 5 { st with bg := 5 } (by omega) rfl,
      parseLoop_cont seq453 6 fuel 5 { st with bg := 5 } 6 { st with bg := 5 }
        (by omega) rfl,
      parseLoop_done seq453 6 fuel 6 { st with bg := 5 } (by omega)]
    rfl
  · intro st fuel
    rw [parse_single_eq seq353 st (fuel + 1) (by decide),
      (by decide : ansi_color_seq_length seq353 = 6),
      parseLoop_cont seq353 6 fuel 2 st 6 st (by omega) rfl,
      parseLoop_done seq353 6 fuel 6 st (by omega)]
    rfl

/-- Witness for C10: instantiating the two symbolic parts on the bodies of the
two concrete sequences (parameter start position 2 of `"\x1b[453m"` and
`"\x1b[353m"`), discharging the byte-shape hypotheses by computation. -/
theorem ansi_bg_no_terminator_check_witness :
    parseStep seq453 6 2 ⟨0, 0, 0, none⟩ = .cont 5 ⟨0, 5, 0, none⟩ ∧
    parseStep seq353 6 2 ⟨0, 0, 0, none⟩ = .cont 6 ⟨0, 0, 0, none⟩ := by
  constructor
  · have h := ansi_bg_no_terminator_check.1 seq453 6 2 ⟨0, 0, 0, none⟩
      (by decide) (by decide) (by decide)
    rw [h]
    decide
  · have h := ansi_bg_no_terminator_check.2.1 seq353 6 2 ⟨0, 0, 0, none⟩
      (by decide) (by decide) (by decide) (by decide)
    rw [h]
    decide

/-- C2: the claim (and spec section 4.2 step 8) says every successful mutating
'color'/'mono' directive emits a change notification carrying the resolved
object identifier.  The code refutes it: parse_color returns `rc` immediately
after the regex-list, quoted and status tier calls (command.c:402, 408, 440,
each followed by a now-dead `// do nothing` comment), so those three successful
mutations never reach the notification block at command.c:451-457; only the
simple-colour path falls through and notifies.  Since the dead comments and the
spec both show the intent that all paths reach the notification, this is a
code bug.  The four runs below install a pattern binding, a quoted-depth
colour and a status pattern binding — each returns success with no notify
effect in its trace — and set a simple colour, which does notify. -/
theorem parse_color_success_without_notify :
    (mutt_parse_color envRegex cbPair
        [("body").toList, ("red").toList, ("blue").toList, ("^From:").toList] =
      ⟨.success, [.regexColorList MT_COLOR_BODY (("^From:").toList) 1 4 0], none⟩) ∧
    (mutt_parse_color envQuoted cbPair
        [("quoted2").toList, ("red").toList, ("blue").toList] =
      ⟨.success, [.quotedColor MT_COLOR_QUOTED 1 4 0 2], none⟩) ∧
    (mutt_parse_color envPlain cbPair
        [("status").toList, ("red").toList, ("blue").toList, ("pat").toList] =
      ⟨.success, [.statusColorList MT_COLOR_STATUS (("pat").toList) 1 4 0 0], none⟩) ∧
    (mutt_parse_color envPlain cbPair
        [("tilde").toList, ("red").toList, ("blue").toList] =
      ⟨.success, [.simpleSet MT_COLOR_TILDE 1 4 0, .notify MT_COLOR_TILDE], none⟩) ∧
    (∀ c : Int,
      Effect.notify c ∉ [Effect.regexColorList MT_COLOR_BODY (("^From:").toList) 1 4 0] ∧
      Effect.notify c ∉ [Effect.quotedColor MT_COLOR_QUOTED 1 4 0 2] ∧
      Effect.notify c ∉ [Effect.statusColorList MT_COLOR_STATUS (("pat").toList) 1 4 0 0]) := by
  refine ⟨by decide, by decide, by decide, by decide, ?_⟩
  intro c
  refine ⟨?_, ?_, ?_⟩ <;> simp

/-- Counterexample to C4 as stated: running 'unmono index ~F' returns success
with an empty effect trace — in particular no per-pattern mono-side removal
(`regex_colors_parse_uncolor(cid, pat, false)` is never called): 'unmono' IS a
no-op, contrary to the claim. -/
theorem unmono_is_noop_counterexample :
    mutt_parse_unmono [("index").toList, ("~F").toList] = ⟨.success, [], none⟩ ∧
    (∀ (p : Option Token) (u : Bool),
      Effect.regexUncolor MT_COLOR_INDEX p u ∉
        (mutt_parse_unmono [("index").toList, ("~F").toList]).effects) := by
  refine ⟨rfl, ?_⟩
  intro p u
  simp [mutt_parse_unmono]

/-- C4 amended: 'unmono' is a no-op for every argument list — mutt_parse_unmono
(command.c:482-487) merely discards the rest of the line and returns success,
never invoking any removal.  Only 'uncolor' reaches the per-binding removal:
'uncolor index ~F' calls regex_colors_parse_uncolor with `uncolor = true` for
the pattern and re-dumps the lists. -/
theorem unmono_noop_uncolor_removes :
    (∀ s : List Token, mutt_parse_unmono s = ⟨.success, [], none⟩) ∧
    (mutt_parse_uncolor envPlain [("index").toList, ("~F").toList] =
      ⟨.success, [.regexUncolor MT_COLOR_INDEX (some (("~F").toList)) true, .regexDumpAll],
        none⟩) :=
  ⟨fun _ => rfl, by decide⟩

/-- Counterexample to C6 as stated: the token `quoted-2` resolves
successfully to the quoted object with quote level -2 (the code only checks
`val > COLOR_QUOTES_MAX`, never `val < 0`), whereas the claim requires every
negative depth to fail with NoSuchObject. -/
theorem quoted_negative_depth_accepted :
    parse_object (("quoted-2").toList) [] =
      ⟨.success, MT_COLOR_QUOTED, -2, ("quoted-2").toList, [], none⟩ ∧
    (-2 : Int) < 0 :=
  ⟨by decide, by decide⟩

/-- C6 amended: for a token starting with "quoted", the resolver yields depth 0
when there is no suffix; when there is a suffix it succeeds exactly when the
suffix parses as a full integer `v ≤ N` (N = COLOR_QUOTES_MAX) — including
negative `v`, which is accepted and yields the negative depth — and fails with
NoSuchObject when the suffix is non-numeric or parses to a value exceeding N.
There is no lower-bound check. -/
theorem parse_object_quoted_amended (tok : Token) (s : List Token)
    (hq : mutt_str_startswith tok (("quoted").toList) = true) :
    (cget tok 6 = nulChar → parse_object tok s = ⟨.success, MT_COLOR_QUOTED, 0, tok, s, none⟩) ∧
    (∀ v : Int, cget tok 6 ≠ nulChar → mutt_str_atoi_full (tok.drop 6) = some v →
      v ≤ COLOR_QUOTES_MAX →
      parse_object tok s = ⟨.success, MT_COLOR_QUOTED, v, tok, s, none⟩) ∧
    (∀ v : Int, cget tok 6 ≠ nulChar → mutt_str_atoi_full (tok.drop 6) = some v →
      COLOR_QUOTES_MAX < v →
      parse_object tok s = ⟨.warning, MT_COLOR_NONE, 0, tok, s, some (.noSuchObject tok)⟩) ∧
    (cget tok 6 ≠ nulChar → mutt_str_atoi_full (tok.drop 6) = none →
      parse_object tok s = ⟨.warning, MT_COLOR_NONE, 0, tok, s, some (.noSuchObject tok)⟩) := by
  rw [show (("quoted").toList) = ['q', 'u', 'o', 't', 'e', 'd'] from rfl] at hq
  refine ⟨?_, ?_, ?_, ?_⟩
  · intro h6
    simp [parse_object, hq, h6]
  · intro v h6 hat hle
    have hnl : ¬(COLOR_QUOTES_MAX < v) := not_lt.mpr hle
    simp [parse_object, hq, h6, hat, hnl]
  · intro v h6 hat hgt
    simp [parse_object, hq, h6, hat, hgt]
  · intro h6 hat
    simp [parse_object, hq, h6, hat]

/-- Witness for C6: the amended theorem applied to the concrete token
`quoted-2`, whose suffix parses to -2 ≤ N, yielding a successful resolution at
depth -2. -/
theorem parse_object_quoted_amended_witness :
    parse_object (("quoted-2").toList) [("x").toList] =
      ⟨.success, MT_COLOR_QUOTED, -2, ("quoted-2").toList, [("x").toList], none⟩ :=
  (parse_object_quoted_amended (("quoted-2").toList) [("x").toList] (by decide)).2.1 (-2)
    (by decide) (by decide) (by decide)

/-- parse_object never reports the default-colours error: its only messages are
NoSuchObject and TooFewArguments. -/
theorem parse_object_err_ne_default (b : Token) (s : List Token) :
    (parse_object b s).err ≠ some ErrMsg.defaultColorsNotSupported := by
  unfold parse_object
  repeat' split
  all_goals simp

/-- The mono attribute parser leaves foreground and background at the caller's
initial 0 and never reports the default-colours error. -/
theorem parse_attr_spec_zero (b : Token) (s : List Token) :
    (parse_attr_spec b s).fg = 0 ∧ (parse_attr_spec b s).bg = 0 ∧
    (parse_attr_spec b s).err ≠ some ErrMsg.defaultColorsNotSupported := by
  cases s with
  | nil => exact ⟨rfl, rfl, by simp [parse_attr_spec]⟩
  | cons t rest =>
    rcases h : attrValue t with _ | a <;> simp [parse_attr_spec, h]

/-- Counterexample to C5 as stated: 'mono tree bold' on a terminal without
default-colour support fails with the default-colours error — the capability
check is not skipped for mono, because its condition (command.c:391-393) also
fires on `cid == MT_COLOR_TREE`, regardless of fg/bg. -/
theorem mono_tree_default_colors_error :
    mutt_parse_mono envNoDefaults [("tree").toList, ("bold").toList] =
      ⟨.error, [], some .defaultColorsNotSupported⟩ := by
  decide

/-- C5 amended: a 'mono' directive parses only attributes (its callback
parse_attr_spec leaves fg and bg at 0, never the default-colour sentinel), so
for every environment and every directive whose object resolves to anything
other than the tree object, 'mono' cannot fail with the
"default colors not supported" error; the check is genuinely skipped only in
that sense — for the tree object the `cid == MT_COLOR_TREE` disjunct of the
check still applies and the error is reachable (see the counterexample). -/
theorem mono_non_tree_no_default_colors_error (env : ColorEnv) (tok : Token)
    (s1 : List Token) (hcid : (parse_object tok s1).cid ≠ MT_COLOR_TREE) :
    (mutt_parse_mono env (tok :: s1)).err ≠ some ErrMsg.defaultColorsNotSupported := by
  intro h
  simp only [mutt_parse_mono, parse_color] at h
  split at h
  · exact parse_object_err_ne_default tok s1 (by simpa using h)
  · split at h
    · exact (parse_attr_spec_zero _ _).2.2 (by simpa using h)
    · split at h
      · simp at h
      · split at h
        · simp at h
        · split at h
          · rename_i hc
            rcases hc with ⟨-, hd, -⟩
            rcases hd with hf | hb | ht
            · have h0 := (parse_attr_spec_zero ((parse_object tok s1).buf)
                ((parse_object tok s1).rest)).1
              rw [h0] at hf
              exact absurd hf (by decide)
            · have h0 := (parse_attr_spec_zero ((parse_object tok s1).buf)
                ((parse_object tok s1).rest)).2.1
              rw [h0] at hb
              exact absurd hb (by decide)
            · exact hcid ht
          · split at h
            · simp at h
            · split at h
              · simp at h
              · split at h
                · split at h
                  · simp at h
                  · split at h
                    · simp at h
                    · split at h
                      · simp at h
                      · simp at h
                · split at h
                  · simp at h
                  · simp at h

/-- Witness for C5: in a no-default-colours environment, 'mono body bold'
(object `body`, not the tree object) does not produce the default-colours
error. -/
theorem mono_non_tree_no_default_colors_error_witness :
    (parse_object (("body").toList) [("bold").toList]).cid ≠ MT_COLOR_TREE ∧
    (mutt_parse_mono envNoDefaults [("body").toList, ("bold").toList]).err ≠
      some ErrMsg.defaultColorsNotSupported :=
  ⟨by decide, mono_non_tree_no_default_colors_error envNoDefaults (("body").toList)
    [("bold").toList] (by decide)⟩

/-- Witness for C3's amended theorem at a concrete accumulator (fg 7, bg 7):
`"\x1b[38;5;200m"` turns the foreground into 200, and `"\x1b[38;5;300m"`
or-s `A_BLINK` into the attributes. -/
theorem ansi_palette_parse_amended_witness :
    ansi_color_parse_single seq200 (some ⟨7, 7, 0, none⟩) false 2 =
      some (11, some ⟨200, 7, 0, none⟩) ∧
    ansi_color_parse_single seq300 (some ⟨7, 7, 0, none⟩) false 3 =
      some (11, some ⟨7, 7, A_BLINK, none⟩) :=
  ⟨ansi_palette_parse_amended.1 ⟨7, 7, 0, none⟩ 0,
    ansi_palette_parse_amended.2 ⟨7, 7, 0, none⟩ 0⟩

/-- Witness for C8 at a concrete bold+red accumulator: the full reset clears it
and the leading-zero form only adds bold. -/
theorem ansi_reset_and_leading_zero_witness :
    ansi_color_parse_single seq0m (some ⟨1, 0, A_BOLD, none⟩) false 1 =
      some (4, some ⟨COLOR_DEFAULT, COLOR_DEFAULT, 0, none⟩) ∧
    ansi_color_parse_single seq01m (some ⟨1, 0, 0, none⟩) false 2 =
      some (5, some ⟨1, 0, A_BOLD, none⟩) :=
  ⟨ansi_reset_and_leading_zero.1 ⟨1, 0, A_BOLD, none⟩ 0,
    ansi_reset_and_leading_zero.2 ⟨1, 0, 0, none⟩ 0⟩

/-- Witness for C4's amended theorem at a concrete argument list. -/
theorem unmono_noop_uncolor_removes_witness :
    mutt_parse_unmono [("body").toList, ("~F").toList] = ⟨.success, [], none⟩ :=
  unmono_noop_uncolor_removes.1 [("body").toList, ("~F").toList]
